import Mathlib

/-!
Verification development for the BizTalk → IBM ACE migration assistant
(Python sources under `src/`).  Each Python function the claims depend on is
shallowly embedded as an executable Lean definition; language-model calls and
the XML parser are treated as oracles whose outcome is an explicit argument.
Rationals stand in for Python floats (all constants involved are small exact
decimals), `Nat` for Python ints, and `String` for Python strings.
-/

/-- Prefix step of the Python substring test: does `p` lead the list `l`?
(The helper underlying the substring test below.) -/
def leadMatch : List Char → List Char → Bool
  | [], _ => true
  | _ :: _, [] => false
  | p :: ps, h :: hs => p == h && leadMatch ps hs

/-- Scan of `subSearch pat hay`: true when `pat` occurs contiguously in `hay`. -/
def subSearch (pat : List Char) : List Char → Bool
  | [] => leadMatch pat []
  | h :: t => leadMatch pat (h :: t) || subSearch pat t

/-- The Python substring operator `pat in s` on strings. -/
def pyIn (pat s : String) : Bool := subSearch pat.data s.data

/-- The Python lowercasing `s.lower()` (character-wise). -/
def pyLower (s : String) : String := ⟨s.data.map Char.toLower⟩

/-- Python truthiness of `s.strip()` combined with truthiness of `s` itself:
`bool(s) and bool(s.strip())` holds exactly when `s` has a non-whitespace
character. -/
def hasBody (s : String) : Bool := s.data.any (fun c => !c.isWhitespace)

/-! ## Program 5 — Postman collection generator (`postman_collection_generator.py`)

`_calculate_automation_score` (lines 2589–2615): additive readiness score from
the counts recorded in `generation_results`, capped at 100. -/

/-- Embeds `_calculate_automation_score`: 25 for any collection, 25/15 for
3+/2+ environments, 25/15 for 20+/10+ payload samples, 25/15 for 4+/2+
documentation files, total capped at 100. -/
def calculateAutomationScore (collections environments payloads docs : Nat) : Nat :=
  let s1 := if collections > 0 then 25 else 0
  let s2 := if environments ≥ 3 then 25 else if environments ≥ 2 then 15 else 0
  let s3 := if payloads ≥ 20 then 25 else if payloads ≥ 10 then 15 else 0
  let s4 := if docs ≥ 4 then 25 else if docs ≥ 2 then 15 else 0
  min (s1 + s2 + s3 + s4) 100

/-! ## Program 3 — ACE module generator (`ace_module_creator.py`)

`_analyze_map` (lines 387–432) collects the regex matches of `<Functoid` and
`FunctoidName="…"` into the `functoids` list and classifies complexity from its
length; `_analyze_xsl_transformation` (lines 484–533) collects
`<xsl:template … name="…"` matches into `templates` and classifies from its
length together with substring checks on the lowercased file content. -/

/-- Complexity determination step of `_analyze_map`: thresholds `>10` and `>3`
on the length of the collected `functoids` match list. -/
def analyzeMapComplexity (functoids : List String) : String :=
  if functoids.length > 10 then "complex"
  else if functoids.length > 3 then "medium"
  else "simple"

/-- Complexity determination step of `_analyze_xsl_transformation`: thresholds
`>10`/`>3` on the collected `templates` list, together with the
`'for-each' in content.lower()` and `'choose' in content.lower()` checks. -/
def analyzeXslComplexity (templates : List String) (content : String) : String :=
  if templates.length > 10 || pyIn "for-each" (pyLower content) then "complex"
  else if templates.length > 3 || pyIn "choose" (pyLower content) then "medium"
  else "simple"

/-! ## Program 1 — BizTalk/ACE mapper (`biztalk_ace_mapper.py`)

`scan_biztalk` (lines 100–113) builds the default extension allow-list and
calls `_discover_files_smart` (lines 298–331), which filters the tree by the
allow-list, groups by (lowercased) extension, and then walks a fixed priority
list, taking at most `max_files_per_type` files per extension. -/

/-- A file found by the recursive tree walk: its name and its suffix. -/
structure FoundFile where
  name : String
  ext : String
  deriving DecidableEq, Repr

/-- The default extension allow-list of `scan_biztalk`. -/
def defaultExtensions : List String :=
  [".odx", ".btm", ".xsd", ".btp", ".btproj", ".sln", ".cs", ".config", ".xml", ".xsl"]

/-- The fixed `priority_order` list of `_discover_files_smart`. -/
def priorityOrder : List String :=
  [".odx", ".btm", ".xsd", ".btp", ".btproj", ".cs", ".config"]

/-- Embeds `_discover_files_smart`: keep files whose lowercased suffix is in
`extensions`, then for each extension of the priority list (in order) select at
most `maxPerType` of its files, preserving discovery order.  Grouping by
extension followed by indexing, as the Python does, is the same as filtering. -/
def discoverFilesSmart (files : List FoundFile) (extensions : List String)
    (maxPerType : Nat) : List FoundFile :=
  let allFiles := files.filter (fun f => extensions.contains (pyLower f.ext))
  priorityOrder.flatMap (fun ext =>
    (allFiles.filter (fun f => pyLower f.ext == ext)).take maxPerType)

/-- The per-extension component `type` literal that `scan_biztalk` assigns. -/
def componentTypeForExt (ext : String) : String :=
  if ext = ".odx" then "BizTalk Orchestration"
  else if ext = ".btm" then "BizTalk Map"
  else if ext = ".xsd" then "XML Schema"
  else if ext = ".btp" then "BizTalk Pipeline"
  else if ext = ".btproj" then "BizTalk Project"
  else if ext = ".sln" then "Solution File"
  else if ext = ".cs" then "C# Source Code"
  else if ext = ".config" then "Configuration File"
  else if ext = ".xsl" ∨ ext = ".xslt" then "XSLT Transform"
  else if ext = ".xml" then "XML Configuration/Data"
  else "Other File"

/-- The fixed component `type` literals `scan_biztalk` can assign. -/
def scannerComponentTypes : List String :=
  ["BizTalk Orchestration", "BizTalk Map", "XML Schema", "BizTalk Pipeline",
   "BizTalk Project", "Solution File", "C# Source Code", "Configuration File",
   "XSLT Transform", "XML Configuration/Data", "Other File"]

/-- A BizTalk Component Record as built by `scan_biztalk` (the fields the
mapping step reads). -/
structure BizComponent where
  name : String
  btype : String
  deriving DecidableEq, Repr

/-- Embeds `scan_biztalk` under the default allow-list: one component record per file
selected by the smart discovery, typed by its extension. -/
def scanBiztalk (files : List FoundFile) (maxPerType : Nat) : List BizComponent :=
  (discoverFilesSmart files defaultExtensions maxPerType).map
    (fun f => ⟨f.name, componentTypeForExt (pyLower f.ext)⟩)

/-! ## Program 2 — MessageFlow synthesizer (`messageflow_generator.py`)

`_validate_xml` (lines 367–392) parses the generated file with
`ET.fromstring` and checks for the two literal marker elements;
`generate_messageflow` (lines 56–73) raises a stage failure exactly when the
validation verdict is not valid.  The XML parser is an oracle here:
`parseResult = none` models a successful parse, `some e` a `ParseError` with
message `e`. -/

/-- Embeds `_validate_xml` on the content of the generated file: parse
verdict, then one error entry appended per missing literal marker; the file is
valid when the parse succeeded and the error list is empty. -/
def validateXml (parseResult : Option String) (content : String) : Bool × List String :=
  let xmlValid := parseResult.isNone
  let errors0 : List String :=
    match parseResult with
    | none => []
    | some e => ["XML Parse Error: " ++ e]
  let errors1 :=
    if pyIn "<propertyOrganizer/>" content then errors0
    else errors0 ++ ["Missing: <propertyOrganizer/>"]
  let errors2 :=
    if pyIn "<stickyBoard/>" content then errors1
    else errors1 ++ ["Missing: <stickyBoard/>"]
  (xmlValid && errors2.length == 0, errors2)

/-- Embeds how `generate_messageflow` raises `MessageFlowGenerationError` (reports
generation failure) exactly when `_validate_xml` returns an invalid verdict. -/
def generateMessageflowFails (parseResult : Option String) (content : String) : Bool :=
  !(validateXml parseResult content).1

/-! ## Dashboard pipeline state (`main.py`)

A session dictionary `pipeline_progress` records one status/output entry
per stage.  `reset_pipeline` (lines 126–134) returns all
five stages to `pending`; stages 1, 3, 4 and 5 record `error` on an escaped
exception (lines 354, 1037, 1355, 1732) while `run_messageflow_generation`
(lines 550–676) records `failed` on its exception path (line 653).
`get_status_icon` (lines 115–124) recognises only the four statuses below. -/

/-- The recorded state of one stage: its status string and its output. -/
structure StageState where
  status : String
  output : Option String
  deriving DecidableEq, Repr

/-- The session-scoped `pipeline_progress` dictionary. -/
structure PipelineProgress where
  program1 : StageState
  program2 : StageState
  program3 : StageState
  program4 : StageState
  program5 : StageState
  deriving DecidableEq, Repr

/-- The status vocabulary of `get_status_icon` and of the documented state
machine: `{pending, running, success, error}`. -/
def allowedStatuses : List String := ["pending", "running", "success", "error"]

/-- Embeds `reset_pipeline`: every stage back to `pending` with no output. -/
def resetPipeline : PipelineProgress :=
  ⟨⟨"pending", none⟩, ⟨"pending", none⟩, ⟨"pending", none⟩,
    ⟨"pending", none⟩, ⟨"pending", none⟩⟩

/-- Embeds `run_messageflow_generation` (main.py lines 550–676): program_2 is
set `running`, then `success` with the generated file on a successful result;
when an exception escapes the stage body the handler at line 653 sets the
status to the string `failed`.  `result = none` models the exception path. -/
def runMessageflowGeneration (st : PipelineProgress) (result : Option String) :
    PipelineProgress :=
  let st1 := { st with program2 := { st.program2 with status := "running" } }
  match result with
  | some msgflowFile => { st1 with program2 := ⟨"success", some msgflowFile⟩ }
  | none => { st1 with program2 := { st1.program2 with status := "failed" } }

/-- Embeds the corresponding stage-3 runner (`run_ace_generation`, status
assignments at main.py lines 851/933/1037): its exception path uses `error`. -/
def runAceGeneration (st : PipelineProgress) (result : Option String) :
    PipelineProgress :=
  let st1 := { st with program3 := { st.program3 with status := "running" } }
  match result with
  | some outputDir => { st1 with program3 := ⟨"success", some outputDir⟩ }
  | none => { st1 with program3 := { st1.program3 with status := "error" } }

/-! ## Postman test-scenario generation (`postman_collection_generator.py`)

`_initialize_test_templates` (lines 110–257) is a fixed catalog: six
categories, each with two named test groups carrying a priority and four
literal scenario descriptions.  `_generate_test_scenarios` (lines 659–707)
expands every literal description 1:1 into a Test Scenario record (paired via
`_match_endpoints_to_scenario`, which returns the first available endpoint),
then appends one entity-specific scenario per discovered business entity and
per first-two primary endpoints, numbering all records sequentially. -/

/-- One named test group of the fixed catalog. -/
structure TestGroup where
  gname : String
  description : String
  priority : Nat
  scenarios : List String
  deriving DecidableEq, Repr

/-- Embeds `_initialize_test_templates`: the full fixed scenario catalog. -/
def testTemplates : List (String × List (String × TestGroup)) :=
  [("functional_tests",
    [("happy_path",
      ⟨"Functional - Happy Path Processing",
       "Test successful message processing with valid data", 1,
       ["Valid business entity processing",
        "Standard transformation scenarios",
        "Database enrichment success paths",
        "Normal routing and delivery"]⟩),
     ("business_variations",
      ⟨"Functional - Business Entity Variations",
       "Test different business entity types and document types", 1,
       ["SHP (Shipment) entity processing",
        "QBK (Booking) entity processing",
        "BRK (Brokerage) entity processing",
        "Document type variations"]⟩)]),
   ("validation_tests",
    [("schema_validation",
      ⟨"Validation - Schema and Data Validation",
       "Test message validation and schema compliance", 2,
       ["XML schema validation",
        "Required field validation",
        "Data type validation",
        "Business rule validation"]⟩),
     ("boundary_tests",
      ⟨"Validation - Boundary Value Testing",
       "Test edge cases and boundary conditions", 2,
       ["Maximum length field testing",
        "Minimum value testing",
        "Special character handling",
        "Unicode and encoding tests"]⟩)]),
   ("error_handling_tests",
    [("invalid_data",
      ⟨"Error Handling - Invalid Data Scenarios",
       "Test error handling for invalid input data", 1,
       ["Malformed XML messages",
        "Missing required fields",
        "Invalid data types",
        "Business rule violations"]⟩),
     ("system_errors",
      ⟨"Error Handling - System Error Scenarios",
       "Test system-level error handling and recovery", 1,
       ["Database connection failures",
        "External service timeouts",
        "Queue unavailability",
        "Transformation failures"]⟩)]),
   ("performance_tests",
    [("load_testing",
      ⟨"Performance - Load Testing",
       "Test system performance under various load conditions", 3,
       ["Single message processing time",
        "Concurrent message processing",
        "Large message handling",
        "Sustained load testing"]⟩),
     ("volume_testing",
      ⟨"Performance - Volume Testing",
       "Test handling of large data volumes", 3,
       ["Large XML message processing",
        "Bulk data transformation",
        "High-volume database lookups",
        "Memory usage optimization"]⟩)]),
   ("integration_tests",
    [("database_integration",
      ⟨"Integration - Database Connectivity",
       "Test database integration and data enrichment", 2,
       ["Database lookup operations",
        "Data enrichment flows",
        "Transaction management",
        "Connection pooling"]⟩),
     ("external_services",
      ⟨"Integration - External Service Calls",
       "Test integration with external systems", 2,
       ["HTTP/REST service calls",
        "SOAP service integration",
        "Authentication handling",
        "Service timeout handling"]⟩)]),
   ("security_tests",
    [("authentication",
      ⟨"Security - Authentication Testing",
       "Test authentication and authorization mechanisms", 2,
       ["Valid authentication tokens",
        "Invalid/expired tokens",
        "Authorization levels",
        "Security header validation"]⟩),
     ("data_security",
      ⟨"Security - Data Security Testing",
       "Test data security and encryption", 2,
       ["Sensitive data handling",
        "Data encryption/decryption",
        "SQL injection prevention",
        "Cross-site scripting prevention"]⟩)])]

/-- A generated Test Scenario record (endpoints are modelled by their type
strings, the field the generator reads). -/
structure TestScenario where
  id : Nat
  category : String
  testType : String
  sname : String
  description : String
  priority : Nat
  endpoints : List String
  deriving DecidableEq, Repr

/-- Embeds `_match_endpoints_to_scenario`: the first available endpoint (or none). -/
def matchEndpointsToScenario (endpoints : List String) : List String :=
  endpoints.take 1

/-- The catalog expansion step of `_generate_test_scenarios`: one record per
literal scenario description, before id numbering. -/
def baseScenarios (endpoints : List String) : List TestScenario :=
  testTemplates.flatMap (fun cat =>
    cat.2.flatMap (fun tg =>
      tg.2.scenarios.map (fun desc =>
        { id := 0, category := cat.1, testType := tg.1,
          sname := tg.2.gname ++ " - " ++ desc,
          description := "Test scenario: " ++ desc,
          priority := tg.2.priority,
          endpoints := matchEndpointsToScenario endpoints })))

/-- The entity-specific step of `_generate_test_scenarios`: one record per
business entity and per first-two primary endpoints, before id numbering. -/
def entityScenarios (endpoints entities : List String) : List TestScenario :=
  entities.flatMap (fun entity =>
    (endpoints.take 2).map (fun ep =>
      { id := 0, category := "entity_specific",
        testType := entity ++ "_processing",
        sname := "Entity Processing - " ++ entity ++ " via " ++ ep,
        description := "Test " ++ entity ++ " entity processing through " ++ ep ++ " endpoint",
        priority := 1, endpoints := [ep] }))

/-- The sequential `TEST_NNN` id counter of `_generate_test_scenarios`. -/
def numberFrom (n : Nat) : List TestScenario → List TestScenario
  | [] => []
  | s :: rest => { s with id := n } :: numberFrom (n + 1) rest

/-- Embeds `_generate_test_scenarios`: catalog expansion followed by
entity-specific scenarios, numbered sequentially from 1. -/
def generateTestScenarios (endpoints entities : List String) : List TestScenario :=
  numberFrom 1 (baseScenarios endpoints ++ entityScenarios endpoints entities)

/-! ## ACE module generation (`ace_module_creator.py`)

`_generate_complete_esql_from_biztalk` (lines 749–841) walks the planned ESQL
requirements, the enrichment requirements and the discovered XSL transforms
(plus, when no transform was discovered, the medium/complex maps), makes one
model call per item and writes the result whenever it is a non-empty string.
Each generator (`_generate_esql_with_llm_using_prompt_module` lines 843–915,
`_generate_enrichment_esql`, `_generate_xsl_transformation`,
`_generate_xsl_from_map`) catches every exception of its model call and
substitutes a fixed skeleton.  A model call is an `LlmOutcome`: `success c`
returns content `c` (the message text of the first choice), `failure` models the
raised exception. -/

/-- Outcome of one language-model chat-completion call. -/
inductive LlmOutcome where
  | success (content : String)
  | failure
  deriving DecidableEq, Repr

/-- A planned ESQL requirement (`_determine_esql_requirements`). -/
structure EsqlRequirement where
  name : String
  rtype : String
  purpose : String
  sourceComponent : String
  deriving DecidableEq, Repr

/-- A planned enrichment requirement (`_determine_enrichment_requirements`). -/
structure EnrichmentRequirement where
  name : String
  etype : String
  purpose : String
  deriving DecidableEq, Repr

/-- A discovered XSL transform (`_analyze_xsl_transformation` output). -/
structure XslTransform where
  name : String
  transformationType : String
  complexity : String
  deriving DecidableEq, Repr

/-- A discovered BizTalk map (`_analyze_map` output). -/
structure MapTransform where
  name : String
  complexity : String
  deriving DecidableEq, Repr

/-- Embeds `_generate_fallback_esql`: the fixed skeleton (copy input to
output, assign a new message id, validate non-null input). -/
def fallbackEsql (req : EsqlRequirement) : String :=
  "-- " ++ req.name ++ ".esql\n" ++
  "-- Generated by ACE Module Creator\n" ++
  "-- Purpose: " ++ req.purpose ++ "\n" ++
  "-- Source: " ++ req.sourceComponent ++ "\n\n" ++
  "CREATE COMPUTE MODULE " ++ req.name ++ "_Compute\n" ++
  "    CREATE FUNCTION Main() RETURNS BOOLEAN\n    BEGIN\n" ++
  "        -- Copy input to output\n" ++
  "        SET OutputRoot = InputRoot;\n\n" ++
  "        -- Generate new correlation ID\n" ++
  "        SET OutputRoot.MQMD.MsgId = UUIDASBLOB();\n" ++
  "        SET OutputRoot.MQMD.CorrelId = InputRoot.MQMD.MsgId;\n\n" ++
  "        -- Add basic processing logic here\n" ++
  "        -- TODO: Implement specific business logic for " ++ req.rtype ++ "\n\n" ++
  "        -- Log processing\n" ++
  "        SET Environment.Variables.ProcessingTimestamp = CURRENT_TIMESTAMP;\n" ++
  "        SET Environment.Variables.ModuleName = \x27" ++ req.name ++ "\x27;\n\n" ++
  "        RETURN TRUE;\n    END;\n\n" ++
  "    CREATE FUNCTION ValidateInput() RETURNS BOOLEAN\n    BEGIN\n" ++
  "        -- Basic validation\n" ++
  "        IF InputRoot IS NULL THEN\n" ++
  "            SET Environment.Variables.ValidationError = \x27Input message is null\x27;\n" ++
  "            RETURN FALSE;\n        END IF;\n\n" ++
  "        RETURN TRUE;\n    END;\nEND MODULE;\n"

/-- Embeds `_generate_fallback_enrichment_esql`: the guarded compute module
with a SQL-exception exit handler. -/
def fallbackEnrichmentEsql (enr : EnrichmentRequirement) : String :=
  "-- " ++ enr.name ++ ".esql\n" ++
  "-- Generated by ACE Module Creator - Enrichment Module\n" ++
  "-- Purpose: " ++ enr.purpose ++ "\n" ++
  "-- Type: " ++ enr.etype ++ "\n\n" ++
  "CREATE COMPUTE MODULE " ++ enr.name ++ "_Compute\n" ++
  "    CREATE FUNCTION Main() RETURNS BOOLEAN\n    BEGIN\n" ++
  "        -- Copy input to output\n" ++
  "        SET OutputRoot = InputRoot;\n\n" ++
  "        -- Database enrichment logic placeholder\n" ++
  "        DECLARE EXIT HANDLER FOR SQLEXCEPTION\n        BEGIN\n" ++
  "            SET Environment.Variables.EnrichmentError = SQLERRORTEXT;\n" ++
  "            SET Environment.Variables.ErrorModule = \x27" ++ enr.name ++ "\x27;\n" ++
  "            RETURN FALSE;\n        END;\n\n" ++
  "        -- TODO: Implement specific enrichment logic for " ++ enr.etype ++ "\n" ++
  "        -- Add database lookup operations here\n\n" ++
  "        -- Log enrichment activity\n" ++
  "        SET Environment.Variables.EnrichmentTimestamp = CURRENT_TIMESTAMP;\n" ++
  "        SET Environment.Variables.EnrichmentModule = \x27" ++ enr.name ++ "\x27;\n\n" ++
  "        RETURN TRUE;\n    END;\nEND MODULE;\n"

/-- Embeds `_generate_fallback_xsl`: the generic identity-transform XSLT. -/
def fallbackXsl (xslName : String) : String :=
  "<?xml version=\"1.0\" encoding=\"UTF-8\"?>\n" ++
  "<xsl:stylesheet version=\"1.0\" xmlns:xsl=\"http://www.w3.org/1999/XSL/Transform\">\n    \n" ++
  "    <!-- Generated by ACE Module Creator -->\n" ++
  "    <!-- XSL Transformation: " ++ xslName ++ " -->\n" ++
  "    <!-- Purpose: Data transformation for IBM ACE -->\n    \n" ++
  "    <xsl:output method=\"xml\" indent=\"yes\" encoding=\"UTF-8\"/>\n    \n" ++
  "    <!-- Identity transformation template -->\n" ++
  "    <xsl:template match=\"@*|node()\">\n        <xsl:copy>\n" ++
  "            <xsl:apply-templates select=\"@*|node()\"/>\n        </xsl:copy>\n" ++
  "    </xsl:template>\n    \n" ++
  "    <!-- Root template -->\n" ++
  "    <xsl:template match=\"/\">\n        <xsl:apply-templates/>\n    </xsl:template>\n    \n" ++
  "    <!-- TODO: Add specific transformation templates for " ++ xslName ++ " -->\n" ++
  "    <!-- Add field mappings, conditional logic, and data transformations here -->\n    \n" ++
  "</xsl:stylesheet>\n"

/-- Embeds `_generate_esql_with_llm_using_prompt_module`: the model text on
success, the fixed fallback skeleton when the call raises. -/
def generateEsqlWithLlm (req : EsqlRequirement) (o : LlmOutcome) : String :=
  match o with
  | .success c => c
  | .failure => fallbackEsql req

/-- Embeds `_generate_enrichment_esql`: model text or the enrichment fallback. -/
def generateEnrichmentEsql (enr : EnrichmentRequirement) (o : LlmOutcome) : String :=
  match o with
  | .success c => c
  | .failure => fallbackEnrichmentEsql enr

/-- Embeds `_generate_xsl_transformation`: model text or the identity fallback. -/
def generateXslTransformation (x : XslTransform) (o : LlmOutcome) : String :=
  match o with
  | .success c => c
  | .failure => fallbackXsl x.name

/-- Embeds `_generate_xsl_from_map`: model text or the identity fallback. -/
def generateXslFromMap (m : MapTransform) (o : LlmOutcome) : String :=
  match o with
  | .success c => c
  | .failure => fallbackXsl m.name

/-- Output directory routing of `_generate_complete_esql_from_biztalk` for
the per-requirement ESQL files. -/
def esqlTargetDir (rtype : String) : String :=
  if rtype = "main_processing" ∨ rtype = "validation" ∨ rtype = "error_handling" then
    "esql/modules"
  else if rtype = "business_logic" ∨ rtype = "transformation" ∨ rtype = "map_conversion" then
    "esql/modules"
  else "esql/procedures"

/-- Embeds `_generate_complete_esql_from_biztalk` (lines 749–841): the list of
files written, one per planned item whose generated content is a non-empty
string (`if esql_content:`); the four outcome lists supply the per-item model
call results in order. -/
def generateCompleteEsqlFromBiztalk (esqlReqs : List EsqlRequirement)
    (enrichReqs : List EnrichmentRequirement) (xslTransforms : List XslTransform)
    (dataTransforms : List MapTransform)
    (esqlOutcomes enrichOutcomes xslOutcomes mapXslOutcomes : List LlmOutcome) :
    List String :=
  let esqlFiles := (esqlReqs.zip esqlOutcomes).filterMap (fun p =>
    if generateEsqlWithLlm p.1 p.2 ≠ "" then
      some (esqlTargetDir p.1.rtype ++ "/" ++ p.1.name ++ ".esql")
    else none)
  let enrichFiles := (enrichReqs.zip enrichOutcomes).filterMap (fun p =>
    if generateEnrichmentEsql p.1 p.2 ≠ "" then
      some ("esql/enrichment/" ++ p.1.name ++ ".esql")
    else none)
  let xslFiles := (xslTransforms.zip xslOutcomes).filterMap (fun p =>
    if generateXslTransformation p.1 p.2 ≠ "" then
      some ("transforms/xsl/" ++ p.1.name ++ "_ACE.xsl")
    else none)
  let mapXslFiles :=
    if !dataTransforms.isEmpty && xslTransforms.isEmpty then
      ((dataTransforms.filter (fun m =>
          m.complexity = "medium" ∨ m.complexity = "complex")).zip mapXslOutcomes).filterMap
        (fun p =>
          if generateXslFromMap p.1 p.2 ≠ "" then
            some ("transforms/xsl/" ++ p.1.name ++ "_Transform.xsl")
          else none)
    else []
  esqlFiles ++ enrichFiles ++ xslFiles ++ mapXslFiles

/-- The number of planned ESQL/enrichment/XSLT requirements of a run: one per
ESQL requirement, one per enrichment requirement, and one per discovered
transform — or, when none was discovered, one per medium/complex map. -/
def plannedRequirementCount (esqlReqs : List EsqlRequirement)
    (enrichReqs : List EnrichmentRequirement) (xslTransforms : List XslTransform)
    (dataTransforms : List MapTransform) : Nat :=
  esqlReqs.length + enrichReqs.length +
    (if xslTransforms.isEmpty then
      (dataTransforms.filter (fun m =>
        m.complexity = "medium" ∨ m.complexity = "complex")).length
    else xslTransforms.length)

/-! ## Mapping confidence and review scores

`_find_matches_by_rules` (biztalk_ace_mapper.py) scores each ACE component
against a BizTalk component (type keywords 0.6/0.7/0.5, name similarity 0.3,
cut-off 0.4, stable sort by descending score, top 3);
`_create_rule_based_mapping` takes the head score as `overall_confidence`
(0.2 when no match); `_refine_mapping_with_llm` (lines 673–729) passes the
model-reported `confidence` through unclamped (default 0.5) and falls back to
the rule-based record when the response is unusable or the call raises.
`_review_esql_compliance` (migration_quality_reviewer.py lines 332–400)
returns the parsed model response as-is, a default score of 8 when the JSON
parse fails, and score 0 when the call itself raises. -/

/-- An ACE library component as analysed by `scan_ace_libraries` (the fields
the matcher reads: name, `technical_patterns`, `type`). -/
structure AceComponent where
  name : String
  patterns : List String
  atype : String
  deriving DecidableEq, Repr

/-- The Python `str.split()`: whitespace-separated words, empties dropped. -/
def wordsAux : List Char → List Char → List String
  | [], acc => if acc.isEmpty then [] else [⟨acc.reverse⟩]
  | c :: rest, acc =>
    if c.isWhitespace then
      if acc.isEmpty then wordsAux rest []
      else ⟨acc.reverse⟩ :: wordsAux rest []
    else wordsAux rest (c :: acc)

/-- The Python `s.split()` with no separator argument. -/
def pySplit (s : String) : List String := wordsAux s.data []

/-- The name-similarity test of `_find_matches_by_rules`:
`any(word in ace_name for word in biz_name.split() if len(word) > 3)`
(both names already lowercased by the caller). -/
def nameSimilar (bizName aceName : String) : Bool :=
  ((pySplit bizName).filter (fun w => w.length > 3)).any (fun w => pyIn w aceName)

/-- The additive score of `_find_matches_by_rules` for one candidate
(0.6 = 3/5, 0.7 = 7/10, 0.5 = 1/2, 0.3 = 3/10 as exact rationals). -/
def matchScore (biz : BizComponent) (ace : AceComponent) : ℚ :=
  (if pyIn "orchestration" (pyLower biz.btype) && ace.patterns.contains "message"
    then 3/5 else 0)
  + (if pyIn "map" (pyLower biz.btype) && ace.patterns.contains "transformation"
    then 7/10 else 0)
  + (if pyIn "schema" (pyLower biz.btype) && (ace.atype == "ACE Library")
    then 1/2 else 0)
  + (if nameSimilar (pyLower biz.name) (pyLower ace.name) then 3/10 else 0)

/-- One insertion step of the Python stable descending sort by score. -/
def insertByScore (x : AceComponent × ℚ) : List (AceComponent × ℚ) → List (AceComponent × ℚ)
  | [] => [x]
  | y :: ys => if y.2 ≥ x.2 then y :: insertByScore x ys else x :: y :: ys

/-- Embeds `matches.sort(key=score, reverse=True)` (stable, descending). -/
def sortByScoreDesc (l : List (AceComponent × ℚ)) : List (AceComponent × ℚ) :=
  l.foldl (fun acc x => insertByScore x acc) []

/-- Embeds `_find_matches_by_rules`: score all candidates, keep those above
0.4 = 2/5, sort by descending score, return the top 3. -/
def findMatchesByRules (biz : BizComponent) (aceComps : List AceComponent) :
    List (AceComponent × ℚ) :=
  let cands := (aceComps.map (fun a => (a, matchScore biz a))).filter
    (fun p => p.2 > 2/5)
  (sortByScoreDesc cands).take 3

/-- A Mapping Record (the confidence-carrying fields). -/
structure MappingRecord where
  biztalkComponent : String
  aceMatches : List (String × ℚ)
  overallConfidence : ℚ
  analysisMethod : String
  deriving DecidableEq, Repr

/-- Embeds `_create_rule_based_mapping`: `overall_confidence = 0.2` with no
match, otherwise the top match's score, with the top-2 as `ace_matches`. -/
def createRuleBasedMapping (biz : BizComponent)
    (cands : List (AceComponent × ℚ)) : MappingRecord :=
  match cands with
  | [] => ⟨biz.name, [], 1/5, "rules"⟩
  | m :: _ =>
      ⟨biz.name, (cands.take 2).map (fun p => (p.1.name, p.2)), m.2, "rules"⟩

/-- The parsed JSON of a refinement response (fields read via `.get`). -/
structure LlmMapResult where
  bestMatch : Option String
  confidence : Option ℚ
  reasoning : Option String
  deriving DecidableEq, Repr

/-- Embeds `_refine_mapping_with_llm`: a usable parsed response yields a
hybrid record whose confidence is the model value (default 0.5), passed
through unclamped; an exception or unusable response falls back to the
rule-based record. -/
def refineMappingWithLlm (biz : BizComponent) (cands : List (AceComponent × ℚ))
    (llmResult : Option LlmMapResult) : MappingRecord :=
  match llmResult with
  | some r =>
      ⟨biz.name, [(r.bestMatch.getD "Unknown", r.confidence.getD (1/2))],
        r.confidence.getD (1/2), "hybrid"⟩
  | none => createRuleBasedMapping biz cands

/-- Embeds `_create_smart_mapping_fast`: the model refines only when enabled
and more than one rule-based candidate survives. -/
def createSmartMappingFast (llmEnabled : Bool) (biz : BizComponent)
    (aceComps : List AceComponent) (llmResult : Option LlmMapResult) : MappingRecord :=
  if llmEnabled ∧ (findMatchesByRules biz aceComps).length > 1 then
    refineMappingWithLlm biz (findMatchesByRules biz aceComps) llmResult
  else createRuleBasedMapping biz (findMatchesByRules biz aceComps)

/-- The result dictionary of `_review_esql_compliance` (fields the pipeline
reads). -/
structure EsqlReview where
  complianceScore : Option ℚ
  cleanedCode : String
  deriving DecidableEq, Repr

/-- Outcome of the per-file compliance review call: the call raised, the
response was not valid JSON, or it parsed to a result dictionary. -/
inductive ReviewOutcome where
  | exceptionRaised
  | parseFailed
  | parsed (result : EsqlReview)
  deriving DecidableEq, Repr

/-- Embeds `_review_esql_compliance` on file content `content`: the parsed
response as-is; `{compliance_score: 8, cleaned_code: content}` when the JSON
parse fails; `{compliance_score: 0, cleaned_code: ""}` when the call raises. -/
def reviewEsqlCompliance (content : String) (outcome : ReviewOutcome) : EsqlReview :=
  match outcome with
  | .parsed r => r
  | .parseFailed => ⟨some 8, content⟩
  | .exceptionRaised => ⟨some 0, ""⟩

/-- A concrete BizTalk map component, as `scan_biztalk` would record it. -/
def sampleBizMap : BizComponent := ⟨"OrderMap", "BizTalk Map"⟩

/-- A concrete ACE library candidate for the matcher. -/
def sampleAceLib : AceComponent := ⟨"TransformLib", ["transformation"], "ACE Library"⟩

/-! ## Prompt Template Library (`prompt_module.py`)

`get_msgflow_generation_prompt` (lines 28–164) is a module-level function
that concatenates prompt sections.  Its final f-string section interpolates
`{self.app_name}` and `{self.flow_name}` (lines 127–128), but the function is
not a method and no `self` is in scope, so evaluating that f-string raises
`NameError` on every call before the section text is ever produced.  The
embedding builds the sections that are reachable and then returns the
`NameError`, modelled as an `Except.error`. -/

/-- One entry of the `esql_modules` argument (fields the builder reads). -/
structure PromptEsqlModule where
  name : String
  purpose : String
  deriving DecidableEq, Repr

/-- One entry of the `components_info` argument (fields the builder reads). -/
structure PromptComponentInfo where
  biztalkComponent : String
  componentType : String
  aceLibrary : String
  deriving DecidableEq, Repr

/-- The Python slice `s[:n]`. -/
def pySlice (s : String) (n : Nat) : String := ⟨s.data.take n⟩

/-- Embeds `get_msgflow_generation_prompt`: builds the header, component,
specification and module sections exactly as the source does, then evaluates
the `## GENERATION REQUIREMENTS` f-string, whose `{self.app_name}` /
`{self.flow_name}` interpolations reference an undefined `self` — Python
raises `NameError` there on every call, so no prompt string is returned. -/
def getMsgflowGenerationPrompt (flowName projectName inputQueue outputService
    errorQueue : String) (esqlModules : List PromptEsqlModule)
    (msgflowTemplate : Option String) (confluenceSpec : Option String)
    (componentsInfo : Option (List PromptComponentInfo)) : Except String String :=
  let prompt1 :=
    "# IBM ACE MessageFlow Generation Task\n\nYou are an expert IBM ACE developer. " ++
    "Generate a production-ready MessageFlow XML based on the provided template and " ++
    "specifications.\n\n## TEMPLATE PROVIDED:\n```xml\n" ++
    (match msgflowTemplate with
     | some t => if t ≠ "" then t else "No template provided - create from scratch"
     | none => "No template provided - create from scratch") ++
    "\n```\n\n## BUSINESS REQUIREMENTS (from Confluence):\n```\n" ++
    (match confluenceSpec with
     | some c => if c ≠ "" then pySlice c 1500 else "No specification provided"
     | none => "No specification provided") ++
    "\n```\n\n## COMPONENT MAPPING CONTEXT:\n"
  let prompt2 := prompt1 ++
    (match componentsInfo with
     | some cs =>
        if cs.isEmpty then ""
        else String.join ((cs.take 5).map (fun c =>
          "\n- **" ++ c.biztalkComponent ++ "**: " ++ c.componentType ++
            " â†’ " ++ c.aceLibrary))
     | none => "")
  let prompt3 := prompt2 ++
    "\n\n## MESSAGEFLOW SPECIFICATIONS:\n- **Flow Name**: " ++ flowName ++
    "\n- **Project**: " ++ projectName ++
    "\n- **Input Queue**: " ++ inputQueue ++
    "\n- **Output Service**: " ++ outputService ++
    "\n- **Error Queue**: " ++ errorQueue ++
    "\n\n## ESQL MODULES TO INTEGRATE:\n"
  let prompt4 := prompt3 ++
    String.join (esqlModules.map (fun m => "\n- **" ++ m.name ++ "**: " ++ m.purpose))
  let _ := prompt4
  Except.error "NameError: name \x27self\x27 is not defined"

/-! ## Quality reviewer publishing (`migration_quality_reviewer.py`)

`_generate_enhanced_modules` (lines 643–836) recreates the output folder and
writes, into its root: enhanced ESQL (reviews with a non-blank
`cleaned_code`), customized modules (customizations with a non-blank
`customized_code` — keyed by ESQL *and* XSL file names), originals for ESQL
files not successfully enhanced, either the single
`ConsolidatedTransformation.xsl` (when the consolidation produced a non-blank
body) or the original XSL files, enhanced-or-original `.project` files (name
sync rewrites content, not names), and `.msgflow` copies skipped when the
name already exists.  The embedding computes the multiset of names written;
the folder contents are its deduplication, because same-name writes into one
directory overwrite. -/

/-- The inputs of one publishing run: the discovered module names per
category, the per-file enhancement results (name ↦ produced body), and the
consolidation body (`""` when no consolidation result exists). -/
structure EnhanceInputs where
  esqlNames : List String
  xslNames : List String
  projectNames : List String
  msgflowNames : List String
  esqlReviews : List (String × String)
  customizedModules : List (String × String)
  projectUpdates : List (String × String)
  consolidatedXsl : String
  deriving DecidableEq, Repr

/-- Names of ESQL files whose compliance review produced a non-blank
`cleaned_code` (first write loop). -/
def reviewedEsqlNames (inp : EnhanceInputs) : List String :=
  (inp.esqlReviews.filter (fun p => hasBody p.2)).map Prod.fst

/-- Names whose account customization produced a non-blank `customized_code`
(second write loop; keys may be ESQL or XSL file names). -/
def customizedBodyNames (inp : EnhanceInputs) : List String :=
  (inp.customizedModules.filter (fun p => hasBody p.2)).map Prod.fst

/-- The `esql_files_successfully_enhanced` set after both write loops. -/
def enhancedEsqlNames (inp : EnhanceInputs) : List String :=
  reviewedEsqlNames inp ++ customizedBodyNames inp

/-- Original ESQL files copied because they were not successfully enhanced. -/
def esqlOriginalNames (inp : EnhanceInputs) : List String :=
  inp.esqlNames.filter (fun n => decide (n ∉ enhancedEsqlNames inp))

/-- The XSL names written: the single consolidated file when the
consolidation produced a non-blank body, the original XSL files otherwise. -/
def xslOutputNames (inp : EnhanceInputs) : List String :=
  if hasBody inp.consolidatedXsl then ["ConsolidatedTransformation.xsl"]
  else inp.xslNames

/-- The `.project` files whose review produced a non-blank updated content. -/
def projectEnhancedNames (inp : EnhanceInputs) : List String :=
  (inp.projectUpdates.filter (fun p => hasBody p.2)).map Prod.fst

/-- Original `.project` files copied (with name sync) otherwise. -/
def projectOriginalNames (inp : EnhanceInputs) : List String :=
  inp.projectNames.filter (fun n => decide (n ∉ projectEnhancedNames inp))

/-- All names written before the `.msgflow` copy loop. -/
def enhancedBaseNames (inp : EnhanceInputs) : List String :=
  enhancedEsqlNames inp ++ esqlOriginalNames inp ++ xslOutputNames inp ++
    projectEnhancedNames inp ++ projectOriginalNames inp

/-- Embeds `_generate_enhanced_modules`: the sequence of file names written
into the output root (the `.msgflow` loop skips names that already exist). -/
def generateEnhancedModules (inp : EnhanceInputs) : List String :=
  enhancedBaseNames inp ++
    inp.msgflowNames.filter (fun n => decide (n ∉ enhancedBaseNames inp))

/-- The published folder contents: one file per distinct written name. -/
def enhancedOutputFolder (inp : EnhanceInputs) : List String :=
  (generateEnhancedModules inp).dedup

/-- A concrete run for the publishing witness: one file of each category, one
successful ESQL review, no customization, no consolidation body. -/
def publishRunSample : EnhanceInputs :=
  ⟨["Main.esql"], ["Transform.xsl"], [".project"], ["Flow.msgflow"],
    [("Main.esql", "CREATE COMPUTE MODULE Main_Compute")], [], [], ""⟩

/-- A concrete run in which the XSL consolidation succeeds over two
discovered XSL files (no account customization). -/
def consolidationRunSample : EnhanceInputs :=
  ⟨[], ["TransformA.xsl", "TransformB.xsl"], [], [], [], [], [],
    "<xsl:stylesheet version=\"1.0\"/>"⟩

/-- Claim C10: Every file selected by the smart discovery under the default
allow-list has its (lowercased) extension in the seven-entry priority list; in
particular no `.sln`, `.xml` or `.xsl` file is ever selected, so `scan_biztalk`
creates no component record for such a file. -/
theorem C10_discovery_priority_only (files : List FoundFile) (maxPerType : Nat)
    (f : FoundFile) (hf : f ∈ discoverFilesSmart files defaultExtensions maxPerType) :
    pyLower f.ext ∈ priorityOrder ∧
      pyLower f.ext ≠ ".sln" ∧ pyLower f.ext ≠ ".xml" ∧ pyLower f.ext ≠ ".xsl" := by
  unfold discoverFilesSmart at hf
  rcases List.mem_flatMap.mp hf with ⟨ext, hext, hsel⟩
  have hmem := List.mem_of_mem_take hsel
  have hlow : pyLower f.ext = ext := by
    have := (List.mem_filter.mp hmem).2
    exact eq_of_beq this
  subst hlow
  refine ⟨hext, ?_, ?_, ?_⟩ <;>
    · intro h
      rw [h] at hext
      simp [priorityOrder] at hext

/-- Witness for C10 at a concrete tree: a `.odx` file is selected and the
theorem applies to it. -/

theorem C10_discovery_priority_only_witness :
    pyLower ".odx" ∈ priorityOrder ∧
      pyLower ".odx" ≠ ".sln" ∧ pyLower ".odx" ≠ ".xml" ∧ pyLower ".odx" ≠ ".xsl" := by
  have h : (⟨"Order", ".odx"⟩ : FoundFile) ∈
      discoverFilesSmart [⟨"Order", ".odx"⟩, ⟨"Sol", ".sln"⟩] defaultExtensions 50 := by
    decide
  exact C10_discovery_priority_only _ 50 _ h

/-- Claim C9: With exactly 1 collection, 2 environments, 15 payload samples and 2
documentation files, the automation-readiness score is exactly
70 = 25 + 15 + 15 + 15. -/
theorem C9_automation_score_70 : calculateAutomationScore 1 2 15 2 = 70 := by decide

/-- Claim C7: In the analysis of the ACE module generator, a map whose collected
functoid-match list has exactly 3 entries classifies `simple`, exactly 4
`medium`, exactly 11 `complex`; an XSLT whose collected template list has
exactly 3 entries and whose content has no `for-each`/`choose` classifies
`simple`, 4 entries (no `for-each`) `medium`, 11 entries `complex`. -/
theorem C7_complexity_thresholds
    (f3 f4 f11 : List String) (t3 t4 t11 : List String) (c3 c4 c11 : String)
    (hf3 : f3.length = 3) (hf4 : f4.length = 4) (hf11 : f11.length = 11)
    (ht3 : t3.length = 3) (ht4 : t4.length = 4) (ht11 : t11.length = 11)
    (hc3a : pyIn "for-each" (pyLower c3) = false) (hc3b : pyIn "choose" (pyLower c3) = false)
    (hc4a : pyIn "for-each" (pyLower c4) = false) (hc4b : pyIn "choose" (pyLower c4) = false) :
    analyzeMapComplexity f3 = "simple" ∧
    analyzeMapComplexity f4 = "medium" ∧
    analyzeMapComplexity f11 = "complex" ∧
    analyzeXslComplexity t3 c3 = "simple" ∧
    analyzeXslComplexity t4 c4 = "medium" ∧
    analyzeXslComplexity t11 c11 = "complex" := by
  unfold analyzeMapComplexity analyzeXslComplexity
  rw [hf3, hf4, hf11, ht3, ht4, ht11, hc3a, hc3b, hc4a, hc4b]
  norm_num

/-- Witness for C7 at concrete lists and contents. -/
theorem C7_complexity_thresholds_witness :
    analyzeMapComplexity ["a", "b", "c"] = "simple" ∧
    analyzeMapComplexity ["a", "b", "c", "d"] = "medium" ∧
    analyzeMapComplexity ["a", "b", "c", "d", "e", "f", "g", "h", "i", "j", "k"] = "complex" ∧
    analyzeXslComplexity ["t1", "t2", "t3"] "<xsl:stylesheet/>" = "simple" ∧
    analyzeXslComplexity ["t1", "t2", "t3", "t4"] "<xsl:stylesheet/>" = "medium" ∧
    analyzeXslComplexity ["t1", "t2", "t3", "t4", "t5", "t6", "t7", "t8", "t9", "t10", "t11"]
      "<xsl:stylesheet/>" = "complex" :=
  C7_complexity_thresholds _ _ _ _ _ _ _ _ _
    rfl rfl rfl rfl rfl rfl (by decide) (by decide) (by decide) (by decide)

/-- A parse-error message never collides with a missing-marker entry (their
first characters differ), so marker counts are unaffected by the parse entry. -/
theorem xmlParseEntry_ne (e t : String) (h : t.data.head? ≠ some 'X') :
    "XML Parse Error: " ++ e ≠ t := by
  intro hc
  apply h
  rw [← hc]
  rfl

/-- Claim C6 (confirmed): The synthesizer reports generation failure iff the
generated file fails XML parsing or lacks one of the two literal marker
elements; and when both markers are missing the error list names each missing
marker exactly once. -/
theorem C6_validation_failure_iff (parseResult : Option String) (content : String) :
    (generateMessageflowFails parseResult content = true ↔
      (parseResult.isSome ∨ pyIn "<propertyOrganizer/>" content = false ∨
        pyIn "<stickyBoard/>" content = false)) ∧
    (pyIn "<propertyOrganizer/>" content = false →
      pyIn "<stickyBoard/>" content = false →
      (validateXml parseResult content).2.count "Missing: <propertyOrganizer/>" = 1 ∧
        (validateXml parseResult content).2.count "Missing: <stickyBoard/>" = 1) := by
  unfold generateMessageflowFails validateXml
  rcases parseResult with _ | e
  · rcases h1 : pyIn "<propertyOrganizer/>" content <;>
      rcases h2 : pyIn "<stickyBoard/>" content <;>
        simp [h1, h2, List.count_cons, List.count_append, List.count_nil]
  · have n1 : "XML Parse Error: " ++ e ≠ "Missing: <propertyOrganizer/>" :=
      xmlParseEntry_ne e _ (by decide)
    have n2 : "XML Parse Error: " ++ e ≠ "Missing: <stickyBoard/>" :=
      xmlParseEntry_ne e _ (by decide)
    rcases h1 : pyIn "<propertyOrganizer/>" content <;>
      rcases h2 : pyIn "<stickyBoard/>" content <;>
        simp [h1, h2, List.count_cons, List.count_append, List.count_nil, n1, n2]

/-- Witness for C6: a well-formed parse with both markers missing reports
failure, and both markers are named exactly once in the error list. -/
theorem C6_validation_failure_iff_witness :
    generateMessageflowFails none "<ecore:x/>" = true ∧
    (validateXml none "<ecore:x/>").2.count "Missing: <propertyOrganizer/>" = 1 ∧
      (validateXml none "<ecore:x/>").2.count "Missing: <stickyBoard/>" = 1 := by
  have h := C6_validation_failure_iff none "<ecore:x/>"
  exact ⟨h.1.mpr (Or.inr (Or.inl (by decide))), h.2 (by decide) (by decide)⟩

/-- Claim C8 (code bug): An exception in the MessageFlow-generation stage leaves
the program_2 status at the string `failed`, which is outside the documented
status vocabulary `{pending, running, success, error}` (the icon map renders
it as unknown); the stage-3 runner, by contrast, records `error`.  This refutes
the claim that every transition keeps statuses inside the four-value set. -/
theorem C8_failed_status_outside_vocabulary :
    (runMessageflowGeneration resetPipeline none).program2.status = "failed" ∧
    (runMessageflowGeneration resetPipeline none).program2.status ∉ allowedStatuses ∧
    (runAceGeneration resetPipeline none).program3.status ∈ allowedStatuses := by
  decide

theorem numberFrom_length (n : Nat) (l : List TestScenario) :
    (numberFrom n l).length = l.length := by
  induction l generalizing n with
  | nil => rfl
  | cons s rest ih => simp [numberFrom, ih]

theorem numberFrom_mem (n : Nat) (l : List TestScenario) (sc : TestScenario)
    (h : sc ∈ numberFrom n l) : ∃ s ∈ l, sc = { s with id := sc.id } := by
  induction l generalizing n with
  | nil => simp [numberFrom] at h
  | cons s rest ih =>
    rcases h with _ | ⟨_, h⟩
    · exact ⟨s, List.mem_cons_self .., rfl⟩
    · rcases ih (n + 1) h with ⟨t, ht, hEq⟩
      exact ⟨t, List.mem_cons_of_mem _ ht, hEq⟩

theorem baseScenarios_length (endpoints : List String) :
    (baseScenarios endpoints).length = 48 := by
  simp [baseScenarios, testTemplates]

theorem entityScenarios_length (endpoints entities : List String) :
    (entityScenarios endpoints entities).length
      = entities.length * min 2 endpoints.length := by
  induction entities with
  | nil => simp [entityScenarios]
  | cons e rest ih =>
    simp only [entityScenarios, List.flatMap_cons, List.length_append,
      List.length_map, List.length_take] at ih ⊢
    rw [ih, List.length_cons]
    ring

theorem baseScenarios_fields (endpoints : List String) (s : TestScenario)
    (hs : s ∈ baseScenarios endpoints) :
    s.endpoints = endpoints.take 1 ∧ s.category ≠ "entity_specific" := by
  unfold baseScenarios at hs
  rcases List.mem_flatMap.mp hs with ⟨cat, hcat, hs⟩
  rcases List.mem_flatMap.mp hs with ⟨tg, htg, hs⟩
  rcases List.mem_map.mp hs with ⟨desc, _, rfl⟩
  refine ⟨rfl, ?_⟩
  simp only [testTemplates, List.mem_cons, List.not_mem_nil, or_false] at hcat
  rcases hcat with rfl | rfl | rfl | rfl | rfl | rfl <;> simp

/-- Claim C5 (amended): The fixed catalog yields 48 base scenario definitions
(six categories × two groups × four literal descriptions), expanded 1:1 into
Test Scenario records each paired with the first available endpoint; on top,
one entity-specific scenario per (entity × first-two endpoints), so a run
produces exactly `48 + entities·min(2, endpoints)` scenarios — in particular
at least that many. -/
theorem C5_scenario_counts (endpoints entities : List String) (sc : TestScenario)
    (hsc : sc ∈ generateTestScenarios endpoints entities)
    (hbase : sc.category ≠ "entity_specific") :
    (generateTestScenarios endpoints entities).length
        = 48 + entities.length * min 2 endpoints.length ∧
    sc.endpoints = matchEndpointsToScenario endpoints := by
  constructor
  · unfold generateTestScenarios
    rw [numberFrom_length, List.length_append, baseScenarios_length,
      entityScenarios_length]
  · unfold generateTestScenarios at hsc
    rcases numberFrom_mem _ _ _ hsc with ⟨s, hs, hEq⟩
    rcases List.mem_append.mp hs with h | h
    · rw [hEq]
      exact (baseScenarios_fields endpoints s h).1
    · exfalso
      apply hbase
      rcases List.mem_flatMap.mp h with ⟨entity, _, hmem⟩
      rcases List.mem_map.mp hmem with ⟨ep, _, rfl⟩
      rw [hEq]

/-- Witness for C5: one HTTP endpoint and one `SHP` entity give 50 scenarios,
and the first catalog record is paired with the first endpoint. -/
theorem C5_scenario_counts_witness :
    (generateTestScenarios ["HTTP"] ["SHP"]).length = 48 + 1 * min 2 1 ∧
    ({ id := 1, category := "functional_tests", testType := "happy_path",
       sname := "Functional - Happy Path Processing - Valid business entity processing",
       description := "Test scenario: Valid business entity processing",
       priority := 1, endpoints := ["HTTP"] } : TestScenario).endpoints
      = matchEndpointsToScenario ["HTTP"] :=
  C5_scenario_counts ["HTTP"] ["SHP"] _ (by decide) (by decide)

/-- Claim C5 counterexample: The catalog expands to 48 base scenario records,
not 24: a run over empty endpoint/entity sets consists of the base records
alone and their number is not 24. -/
theorem C5_base_count_not_24 : (generateTestScenarios [] []).length ≠ 24 := by
  have h : (generateTestScenarios [] []).length = 48 := by
    unfold generateTestScenarios
    rw [numberFrom_length, List.length_append, baseScenarios_length,
      entityScenarios_length]
    simp
  rw [h]
  decide

theorem str_append_ne_empty_left (s t : String) (h : s ≠ "") : s ++ t ≠ "" := by
  intro hc
  have hd : s.data ++ t.data = ([] : List Char) := congrArg String.data hc
  have hs : s.data = [] := (List.append_eq_nil.mp hd).1
  apply h
  cases s with
  | mk d =>
    simp only [String.data] at hs
    subst hs
    rfl

theorem fallbackEsql_ne_empty (req : EsqlRequirement) : fallbackEsql req ≠ "" := by
  unfold fallbackEsql
  repeat apply str_append_ne_empty_left
  decide

theorem fallbackEnrichmentEsql_ne_empty (enr : EnrichmentRequirement) :
    fallbackEnrichmentEsql enr ≠ "" := by
  unfold fallbackEnrichmentEsql
  repeat apply str_append_ne_empty_left
  decide

theorem fallbackXsl_ne_empty (xslName : String) : fallbackXsl xslName ≠ "" := by
  unfold fallbackXsl
  repeat apply str_append_ne_empty_left
  decide

theorem filterMap_all_some {α β : Type} (l : List α) (f : α → Option β)
    (h : ∀ a ∈ l, (f a).isSome) : (l.filterMap f).length = l.length := by
  induction l with
  | nil => rfl
  | cons a t ih =>
    rw [List.filterMap_cons]
    rcases hf : f a with _ | b
    · exact absurd (h a (List.mem_cons_self ..)) (by simp [hf])
    · simp only [List.length_cons, ih (fun x hx => h x (List.mem_cons_of_mem _ hx))]

/-- Claim C2 (amended): A run over N planned ESQL/enrichment/XSLT requirements
writes exactly N files provided every *successful* model call returns
non-empty content: failed calls always substitute the non-empty fallback
skeletons, so a failure never drops a planned file.  (A call that succeeds
with empty content is silently skipped by the `if esql_content:` guards — see
the counterexample.) -/
theorem C2_exact_file_count (esqlReqs : List EsqlRequirement)
    (enrichReqs : List EnrichmentRequirement) (xslTransforms : List XslTransform)
    (dataTransforms : List MapTransform)
    (esqlOutcomes enrichOutcomes xslOutcomes mapXslOutcomes : List LlmOutcome)
    (h1 : esqlOutcomes.length = esqlReqs.length)
    (h2 : enrichOutcomes.length = enrichReqs.length)
    (h3 : xslOutcomes.length = xslTransforms.length)
    (h4 : mapXslOutcomes.length = (dataTransforms.filter (fun m =>
      m.complexity = "medium" ∨ m.complexity = "complex")).length)
    (hs1 : ∀ c, LlmOutcome.success c ∈ esqlOutcomes → c ≠ "")
    (hs2 : ∀ c, LlmOutcome.success c ∈ enrichOutcomes → c ≠ "")
    (hs3 : ∀ c, LlmOutcome.success c ∈ xslOutcomes → c ≠ "")
    (hs4 : ∀ c, LlmOutcome.success c ∈ mapXslOutcomes → c ≠ "") :
    (generateCompleteEsqlFromBiztalk esqlReqs enrichReqs xslTransforms dataTransforms
        esqlOutcomes enrichOutcomes xslOutcomes mapXslOutcomes).length
      = plannedRequirementCount esqlReqs enrichReqs xslTransforms dataTransforms := by
  have pairNe : ∀ (p : EsqlRequirement × LlmOutcome), p.2 ∈ esqlOutcomes →
      generateEsqlWithLlm p.1 p.2 ≠ "" := by
    rintro ⟨r, c | _⟩ hmem
    · exact hs1 _ hmem
    · exact fallbackEsql_ne_empty r
  have pairNe2 : ∀ (p : EnrichmentRequirement × LlmOutcome), p.2 ∈ enrichOutcomes →
      generateEnrichmentEsql p.1 p.2 ≠ "" := by
    rintro ⟨r, c | _⟩ hmem
    · exact hs2 _ hmem
    · exact fallbackEnrichmentEsql_ne_empty r
  have pairNe3 : ∀ (p : XslTransform × LlmOutcome), p.2 ∈ xslOutcomes →
      generateXslTransformation p.1 p.2 ≠ "" := by
    rintro ⟨r, c | _⟩ hmem
    · exact hs3 _ hmem
    · exact fallbackXsl_ne_empty r.name
  have pairNe4 : ∀ (p : MapTransform × LlmOutcome), p.2 ∈ mapXslOutcomes →
      generateXslFromMap p.1 p.2 ≠ "" := by
    rintro ⟨r, c | _⟩ hmem
    · exact hs4 _ hmem
    · exact fallbackXsl_ne_empty r.name
  unfold generateCompleteEsqlFromBiztalk plannedRequirementCount
  rw [List.length_append, List.length_append, List.length_append]
  have len1 : ((esqlReqs.zip esqlOutcomes).filterMap (fun p =>
      if generateEsqlWithLlm p.1 p.2 ≠ "" then
        some (esqlTargetDir p.1.rtype ++ "/" ++ p.1.name ++ ".esql")
      else none)).length = esqlReqs.length := by
    rw [filterMap_all_some _ _ (fun p hp => by
      rw [if_pos (pairNe p (List.of_mem_zip hp).2)]
      rfl)]
    rw [List.length_zip, h1, Nat.min_self]
  have len2 : ((enrichReqs.zip enrichOutcomes).filterMap (fun p =>
      if generateEnrichmentEsql p.1 p.2 ≠ "" then
        some ("esql/enrichment/" ++ p.1.name ++ ".esql")
      else none)).length = enrichReqs.length := by
    rw [filterMap_all_some _ _ (fun p hp => by
      rw [if_pos (pairNe2 p (List.of_mem_zip hp).2)]
      rfl)]
    rw [List.length_zip, h2, Nat.min_self]
  have len3 : ((xslTransforms.zip xslOutcomes).filterMap (fun p =>
      if generateXslTransformation p.1 p.2 ≠ "" then
        some ("transforms/xsl/" ++ p.1.name ++ "_ACE.xsl")
      else none)).length = xslTransforms.length := by
    rw [filterMap_all_some _ _ (fun p hp => by
      rw [if_pos (pairNe3 p (List.of_mem_zip hp).2)]
      rfl)]
    rw [List.length_zip, h3, Nat.min_self]
  have len4 : (((dataTransforms.filter (fun m =>
        m.complexity = "medium" ∨ m.complexity = "complex")).zip mapXslOutcomes).filterMap
      (fun p =>
        if generateXslFromMap p.1 p.2 ≠ "" then
          some ("transforms/xsl/" ++ p.1.name ++ "_Transform.xsl")
        else none)).length
      = (dataTransforms.filter (fun m =>
          m.complexity = "medium" ∨ m.complexity = "complex")).length := by
    rw [filterMap_all_some _ _ (fun p hp => by
      rw [if_pos (pairNe4 p (List.of_mem_zip hp).2)]
      rfl)]
    rw [List.length_zip, h4, Nat.min_self]
  rw [len1, len2, len3]
  by_cases hxe : xslTransforms = []
  · subst hxe
    by_cases hde : dataTransforms = []
    · subst hde
      simp
    · have hdeb : dataTransforms.isEmpty = false := by
        cases dataTransforms with
        | nil => exact absurd rfl hde
        | cons a t => rfl
      simp only [hdeb, List.isEmpty_nil, Bool.not_false, Bool.and_self, if_true,
        List.length_nil, len4]
      omega
  · have hxeb : xslTransforms.isEmpty = false := by
      cases xslTransforms with
      | nil => exact absurd rfl hxe
      | cons a t => rfl
    simp only [hxeb, Bool.and_false, Bool.false_eq_true, if_false, List.length_nil]
    omega

/-- Witness for C2: one planned ESQL requirement whose model call fails still
yields exactly one (fallback) file. -/
theorem C2_exact_file_count_witness :
    (generateCompleteEsqlFromBiztalk
        [⟨"EPIS_Main", "main_processing", "Primary message processing logic",
          "System Generated"⟩] [] [] [] [LlmOutcome.failure] [] [] []).length
      = plannedRequirementCount
          [⟨"EPIS_Main", "main_processing", "Primary message processing logic",
            "System Generated"⟩] [] [] [] :=
  C2_exact_file_count _ _ _ _ _ _ _ _ rfl rfl rfl rfl
    (by intro c hc; simp at hc) (by intro c hc; simp at hc)
    (by intro c hc; simp at hc) (by intro c hc; simp at hc)

/-- Claim C2 counterexample: A model call that *succeeds* with empty content
drops its planned requirement: one planned ESQL requirement, a successful call
returning the empty string, zero files written — not the planned one file. -/
theorem C2_empty_success_drops_file :
    (generateCompleteEsqlFromBiztalk
        [⟨"EPIS_Main", "main_processing", "Primary message processing logic",
          "System Generated"⟩] [] [] [] [LlmOutcome.success ""] [] [] []).length = 0 ∧
    plannedRequirementCount
        [⟨"EPIS_Main", "main_processing", "Primary message processing logic",
          "System Generated"⟩] [] [] [] = 1 := by
  constructor
  · rfl
  · rfl

/-- No `scan_biztalk` type literal contains more than one of the three scoring
keywords, so at most one type bonus ever fires. -/
theorem scannerTypes_keyword_exclusive :
    ∀ t ∈ scannerComponentTypes,
      ((if pyIn "orchestration" (pyLower t) then (1 : Nat) else 0) +
        (if pyIn "map" (pyLower t) then 1 else 0) +
        (if pyIn "schema" (pyLower t) then 1 else 0)) ≤ 1 := by
  decide

theorem matchScore_bounds (biz : BizComponent) (ace : AceComponent)
    (hb : biz.btype ∈ scannerComponentTypes) :
    0 ≤ matchScore biz ace ∧ matchScore biz ace ≤ 1 := by
  have hex := scannerTypes_keyword_exclusive biz.btype hb
  unfold matchScore
  cases ho : pyIn "orchestration" (pyLower biz.btype) <;>
    cases hm : pyIn "map" (pyLower biz.btype) <;>
      cases hs : pyIn "schema" (pyLower biz.btype) <;>
        rw [ho, hm, hs] at hex <;>
          simp only [ho, hm, hs, Bool.false_and, Bool.true_and, Bool.false_eq_true,
            eq_self_iff_true, if_false, if_true] at hex ⊢ <;>
            first
            | omega
            | (constructor <;> split_ifs <;> first | assumption | norm_num)

theorem mem_insertByScore (x y : AceComponent × ℚ) (l : List (AceComponent × ℚ))
    (h : y ∈ insertByScore x l) : y = x ∨ y ∈ l := by
  induction l with
  | nil => simpa [insertByScore] using h
  | cons z t ih =>
    simp only [insertByScore] at h
    by_cases hc : z.2 ≥ x.2
    · rw [if_pos hc] at h
      rcases List.mem_cons.mp h with rfl | h
      · exact Or.inr (List.mem_cons_self ..)
      · rcases ih h with h' | h'
        · exact Or.inl h'
        · exact Or.inr (List.mem_cons_of_mem _ h')
    · rw [if_neg hc] at h
      rcases List.mem_cons.mp h with rfl | h
      · exact Or.inl rfl
      · exact Or.inr h

theorem mem_sortByScoreDesc (l : List (AceComponent × ℚ)) (y : AceComponent × ℚ)
    (h : y ∈ sortByScoreDesc l) : y ∈ l := by
  suffices h' : ∀ acc : List (AceComponent × ℚ),
      y ∈ l.foldl (fun a x => insertByScore x a) acc → y ∈ acc ∨ y ∈ l by
    rcases h' [] h with h'' | h''
    · simp at h''
    · exact h''
  intro acc
  clear h
  induction l generalizing acc with
  | nil => exact fun hy => Or.inl hy
  | cons z t ih =>
    intro hy
    rcases ih (insertByScore z acc) hy with hy' | hy'
    · rcases mem_insertByScore z y acc hy' with rfl | hy''
      · exact Or.inr (List.mem_cons_self ..)
      · exact Or.inl hy''
    · exact Or.inr (List.mem_cons_of_mem _ hy')

theorem findMatches_scores (biz : BizComponent) (aceComps : List AceComponent)
    (hb : biz.btype ∈ scannerComponentTypes) (p : AceComponent × ℚ)
    (hp : p ∈ findMatchesByRules biz aceComps) : 2/5 < p.2 ∧ p.2 ≤ 1 := by
  unfold findMatchesByRules at hp
  have hp' := mem_sortByScoreDesc _ _ (List.mem_of_mem_take hp)
  have hfil := List.mem_filter.mp hp'
  have h1 : p.2 > 2/5 := of_decide_eq_true hfil.2
  rcases List.mem_map.mp hfil.1 with ⟨a, _, rfl⟩
  exact ⟨h1, (matchScore_bounds biz a hb).2⟩

theorem createRuleBased_bounds (biz : BizComponent)
    (cands : List (AceComponent × ℚ))
    (hm : ∀ p ∈ cands, 2/5 < p.2 ∧ p.2 ≤ 1) :
    (0 ≤ (createRuleBasedMapping biz cands).overallConfidence ∧
      (createRuleBasedMapping biz cands).overallConfidence ≤ 1) ∧
    ∀ q ∈ (createRuleBasedMapping biz cands).aceMatches, 0 ≤ q.2 ∧ q.2 ≤ 1 := by
  cases cands with
  | nil =>
    refine ⟨⟨?_, ?_⟩, ?_⟩
    · show (0 : ℚ) ≤ 1/5
      norm_num
    · show (1 : ℚ)/5 ≤ 1
      norm_num
    · intro q hq
      simp [createRuleBasedMapping] at hq
  | cons m rest =>
    have hm1 := hm m (List.mem_cons_self ..)
    refine ⟨⟨?_, ?_⟩, ?_⟩
    · show (0 : ℚ) ≤ m.2
      linarith [hm1.1]
    · show m.2 ≤ 1
      exact hm1.2
    · intro q hq
      simp only [createRuleBasedMapping] at hq
      rcases List.mem_map.mp hq with ⟨p, hp, rfl⟩
      have hpm := hm p (List.mem_of_mem_take hp)
      exact ⟨by linarith [hpm.1], hpm.2⟩

/-- Claim C3 (amended): Rule-based mapping confidences (overall and per-match)
always lie in [0, 1] for scanner-produced component types, and an
LLM-refined record confidence lies in [0, 1] exactly when the
model-reported value (default 0.5) does — it is passed through unclamped.
The per-file review score is the model-reported value unclamped (so in
[1, 10] when the model value is), the documented default 8 on a JSON-parse
failure, and 0 when the review call itself raises. -/
theorem C3_confidence_and_score_ranges (llmEnabled : Bool) (biz : BizComponent)
    (aceComps : List AceComponent) (llmResult : Option LlmMapResult)
    (content : String) (outcome : ReviewOutcome) (s : ℚ) (q : String × ℚ)
    (hb : biz.btype ∈ scannerComponentTypes)
    (hllm : ∀ r, llmResult = some r →
      0 ≤ r.confidence.getD (1/2) ∧ r.confidence.getD (1/2) ≤ 1)
    (hparsed : ∀ r, outcome = ReviewOutcome.parsed r →
      ∀ t, r.complianceScore = some t → 1 ≤ t ∧ t ≤ 10)
    (hq : q ∈ (createSmartMappingFast llmEnabled biz aceComps llmResult).aceMatches)
    (hscore : (reviewEsqlCompliance content outcome).complianceScore = some s) :
    (0 ≤ (createSmartMappingFast llmEnabled biz aceComps llmResult).overallConfidence ∧
      (createSmartMappingFast llmEnabled biz aceComps llmResult).overallConfidence ≤ 1) ∧
    (0 ≤ q.2 ∧ q.2 ≤ 1) ∧
    (outcome = ReviewOutcome.exceptionRaised → s = 0) ∧
    (outcome ≠ ReviewOutcome.exceptionRaised → 1 ≤ s ∧ s ≤ 10) := by
  have hrule := createRuleBased_bounds biz (findMatchesByRules biz aceComps)
    (fun p hp => findMatches_scores biz aceComps hb p hp)
  have hmap : (0 ≤ (createSmartMappingFast llmEnabled biz aceComps llmResult).overallConfidence ∧
      (createSmartMappingFast llmEnabled biz aceComps llmResult).overallConfidence ≤ 1) ∧
      ∀ q' ∈ (createSmartMappingFast llmEnabled biz aceComps llmResult).aceMatches,
        0 ≤ q'.2 ∧ q'.2 ≤ 1 := by
    unfold createSmartMappingFast
    split_ifs with hcond
    · cases hres : llmResult with
      | none => simpa [refineMappingWithLlm] using hrule
      | some r =>
        have hc := hllm r hres
        simp only [refineMappingWithLlm]
        refine ⟨hc, ?_⟩
        intro q' hq'
        simp only [List.mem_singleton] at hq'
        subst hq'
        exact hc
    · exact hrule
  refine ⟨hmap.1, hmap.2 q hq, ?_, ?_⟩
  · intro hout
    subst hout
    simp only [reviewEsqlCompliance, Option.some.injEq] at hscore
    exact hscore.symm
  · intro hout
    cases outcome with
    | exceptionRaised => exact absurd rfl hout
    | parseFailed =>
      simp only [reviewEsqlCompliance, Option.some.injEq] at hscore
      rw [← hscore]
      norm_num
    | parsed r =>
      exact hparsed r rfl s hscore

theorem matchScore_sample : matchScore sampleBizMap sampleAceLib = 7/10 := by
  unfold matchScore sampleBizMap sampleAceLib
  norm_num [show pyIn "orchestration" (pyLower "BizTalk Map") = false from rfl,
    show pyIn "map" (pyLower "BizTalk Map") = true from rfl,
    show pyIn "schema" (pyLower "BizTalk Map") = false from rfl,
    show nameSimilar (pyLower "OrderMap") (pyLower "TransformLib") = false from rfl]

theorem findMatches_sample :
    findMatchesByRules sampleBizMap [sampleAceLib] = [(sampleAceLib, 7/10)] := by
  unfold findMatchesByRules
  rw [List.map_cons, List.map_nil, matchScore_sample, List.filter_cons]
  norm_num
  rfl

theorem smartMapping_sample :
    createSmartMappingFast false sampleBizMap [sampleAceLib] none
      = ⟨"OrderMap", [("TransformLib", 7/10)], 7/10, "rules"⟩ := by
  unfold createSmartMappingFast
  rw [if_neg (by simp), findMatches_sample]
  rfl

/-- Witness for C3: a rule-based mapping of a BizTalk map onto one candidate
library together with a JSON-parse-failed review; every bound holds and the
degraded score is the documented 8. -/
theorem C3_confidence_and_score_ranges_witness :
    (0 ≤ (createSmartMappingFast false sampleBizMap [sampleAceLib] none).overallConfidence ∧
      (createSmartMappingFast false sampleBizMap [sampleAceLib] none).overallConfidence ≤ 1) ∧
    (0 ≤ (("TransformLib", (7 : ℚ)/10)).2 ∧ (("TransformLib", (7 : ℚ)/10)).2 ≤ 1) ∧
    (ReviewOutcome.parseFailed = ReviewOutcome.exceptionRaised → (8 : ℚ) = 0) ∧
    (ReviewOutcome.parseFailed ≠ ReviewOutcome.exceptionRaised →
      1 ≤ (8 : ℚ) ∧ (8 : ℚ) ≤ 10) :=
  C3_confidence_and_score_ranges false sampleBizMap [sampleAceLib] none
    "CREATE COMPUTE MODULE OrderMap_Compute" ReviewOutcome.parseFailed 8
    ("TransformLib", 7/10) (by decide) (fun r h => nomatch h)
    (fun r h => nomatch h)
    (by rw [smartMapping_sample]; exact List.mem_cons_self ..) rfl

/-- Claim C3 counterexample: Nothing clamps the model-supplied values: a
parseable refinement response carrying `confidence: 2` yields a Mapping
Record with `overall_confidence = 2 ∉ [0,1]`, and a review whose call raises
returns `compliance_score = 0 ∉ [1,10]` (not the documented default 8). -/
theorem C3_unclamped_confidence :
    (refineMappingWithLlm sampleBizMap [(sampleAceLib, 7/10)]
        (some ⟨some "TransformLib", some 2, none⟩)).overallConfidence = 2 ∧
    ¬((2 : ℚ) ≤ 1) ∧
    (reviewEsqlCompliance "SET OutputRoot = InputRoot;"
        ReviewOutcome.exceptionRaised).complianceScore = some 0 ∧
    ¬((1 : ℚ) ≤ 0) :=
  ⟨rfl, by norm_num, rfl, by norm_num⟩

/-- Claim C4 (code bug): The claim says the prompt builder is pure string
concatenation that returns a prompt and never fails; in the code every call
raises `NameError`, because the final f-string section references
`self.app_name`/`self.flow_name` inside a module-level function with no
`self` in scope.  The function therefore never returns a prompt string. -/
theorem C4_prompt_builder_always_raises (flowName projectName inputQueue
    outputService errorQueue : String) (esqlModules : List PromptEsqlModule)
    (msgflowTemplate confluenceSpec : Option String)
    (componentsInfo : Option (List PromptComponentInfo)) :
    getMsgflowGenerationPrompt flowName projectName inputQueue outputService
        errorQueue esqlModules msgflowTemplate confluenceSpec componentsInfo
      = Except.error "NameError: name \x27self\x27 is not defined" := rfl

theorem mem_of_mem_bodyMap {l : List (String × String)} {n : String}
    (h : n ∈ (l.filter (fun p => hasBody p.2)).map Prod.fst) :
    ∃ p ∈ l, p.1 = n := by
  rcases List.mem_map.mp h with ⟨p, hp, rfl⟩
  exact ⟨p, (List.mem_filter.mp hp).1, rfl⟩

theorem mem_generateEnhanced (inp : EnhanceInputs) (n : String) :
    n ∈ generateEnhancedModules inp ↔
      n ∈ enhancedBaseNames inp ∨ n ∈ inp.msgflowNames := by
  unfold generateEnhancedModules
  simp only [List.mem_append, List.mem_filter, decide_eq_true_eq]
  constructor
  · rintro (h | ⟨h, _⟩)
    · exact Or.inl h
    · exact Or.inr h
  · intro h
    by_cases hb : n ∈ enhancedBaseNames inp
    · exact Or.inl hb
    · rcases h with h | h
      · exact absurd h hb
      · exact Or.inr ⟨h, hb⟩

/-- Claim C1 (amended): The published folder holds exactly one file per
discovered ESQL, `.project` and `.msgflow` name; each discovered XSL name
appears exactly once when no consolidation body was produced, while a
produced consolidation body replaces the XSL files with the single
`ConsolidatedTransformation.xsl` (a discovered XSL name then appears only if
an account customization produced content for it).  Hypotheses: enhancement
results are keyed by discovered file names, as the pipeline builds them. -/
theorem C1_output_folder_membership (inp : EnhanceInputs) (n : String)
    (hr : ∀ p ∈ inp.esqlReviews, p.1 ∈ inp.esqlNames)
    (hc : ∀ p ∈ inp.customizedModules, p.1 ∈ inp.esqlNames ∨ p.1 ∈ inp.xslNames)
    (hp : ∀ p ∈ inp.projectUpdates, p.1 ∈ inp.projectNames) :
    (enhancedOutputFolder inp).Nodup ∧
    (n ∈ enhancedOutputFolder inp ↔
      (n ∈ inp.esqlNames ∨ n ∈ inp.projectNames ∨ n ∈ inp.msgflowNames ∨
        (if hasBody inp.consolidatedXsl then
          n = "ConsolidatedTransformation.xsl" ∨
            (n ∈ inp.xslNames ∧ n ∈ customizedBodyNames inp)
        else n ∈ inp.xslNames))) := by
  have hrn : n ∈ reviewedEsqlNames inp → n ∈ inp.esqlNames := by
    intro h
    rcases mem_of_mem_bodyMap h with ⟨p, hmem, rfl⟩
    exact hr p hmem
  have hcn : n ∈ customizedBodyNames inp → n ∈ inp.esqlNames ∨ n ∈ inp.xslNames := by
    intro h
    rcases mem_of_mem_bodyMap h with ⟨p, hmem, rfl⟩
    exact hc p hmem
  have hpn : n ∈ projectEnhancedNames inp → n ∈ inp.projectNames := by
    intro h
    rcases mem_of_mem_bodyMap h with ⟨p, hmem, rfl⟩
    exact hp p hmem
  refine ⟨List.nodup_dedup _, ?_⟩
  unfold enhancedOutputFolder
  rw [List.mem_dedup, mem_generateEnhanced]
  by_cases hcons : hasBody inp.consolidatedXsl = true
  · simp only [enhancedBaseNames, enhancedEsqlNames, esqlOriginalNames,
      xslOutputNames, projectOriginalNames, hcons, eq_self_iff_true, if_true,
      List.mem_append, List.mem_filter, List.mem_singleton, decide_eq_true_eq,
      not_or]
    tauto
  · rw [Bool.not_eq_true] at hcons
    simp only [enhancedBaseNames, enhancedEsqlNames, esqlOriginalNames,
      xslOutputNames, projectOriginalNames, hcons, Bool.false_eq_true, if_false,
      List.mem_append, List.mem_filter, decide_eq_true_eq, not_or]
    tauto

/-- Witness for C1: in the sample run the folder is duplicate-free and the
discovered ESQL name appears. -/
theorem C1_output_folder_membership_witness :
    (enhancedOutputFolder publishRunSample).Nodup ∧
    ("Main.esql" ∈ enhancedOutputFolder publishRunSample ↔
      ("Main.esql" ∈ publishRunSample.esqlNames ∨
        "Main.esql" ∈ publishRunSample.projectNames ∨
        "Main.esql" ∈ publishRunSample.msgflowNames ∨
        (if hasBody publishRunSample.consolidatedXsl then
          "Main.esql" = "ConsolidatedTransformation.xsl" ∨
            ("Main.esql" ∈ publishRunSample.xslNames ∧
              "Main.esql" ∈ customizedBodyNames publishRunSample)
        else "Main.esql" ∈ publishRunSample.xslNames))) :=
  C1_output_folder_membership publishRunSample "Main.esql"
    (by decide) (by decide) (by decide)

/-- Claim C1 counterexample: With a successful XSLT consolidation the
discovered XSL file names are dropped from the output: the folder holds only
`ConsolidatedTransformation.xsl`, not one file per discovered name. -/
theorem C1_xsl_dropped_on_consolidation :
    "TransformA.xsl" ∉ enhancedOutputFolder consolidationRunSample ∧
    enhancedOutputFolder consolidationRunSample
      = ["ConsolidatedTransformation.xsl"] := by
  decide
